import Mathlib

/-!
Verification of the VCF-to-FASTA pipeline (`src/vcf/vcf_to_fasta.py`).

The Python source is shallowly embedded: files are lists of raw lines
(each line carrying its trailing newline where one exists on disk), the
filesystem is an association list from paths to file contents, external
processes are modelled by a `World` record giving each collaborator's
exit code and captured output, and every stage of `VCFtoFASTAPipeline`
becomes a pure state-passing function over that model.  String
operations used by the source (`str.strip`, `str.split`, `''.join`,
`str.startswith`, `str.endswith`) are re-implemented structurally over
`String.data` with Python semantics so that all definitions evaluate.
-/

namespace VCF

/-- Python whitespace characters recognised by `str.strip()` (ASCII part). -/
def isPyWs (c : Char) : Bool :=
  c = ' ' || c = '\t' || c = '\n' || c = '\r' || c = '\x0b' || c = '\x0c'

/-- Model of Python `str.strip()`: drop leading and trailing whitespace. -/
def pythonStrip (s : String) : String :=
  ⟨(((s.data.dropWhile isPyWs).reverse.dropWhile isPyWs)).reverse⟩

/-- Splitting a character list on a separator character, Python
`str.split(sep)` semantics: always returns at least one (possibly empty)
group, and adjacent separators yield empty groups. -/
def splitChar (c : Char) : List Char → List (List Char)
  | [] => [[]]
  | x :: xs =>
    if x = c then [] :: splitChar c xs
    else
      match splitChar c xs with
      | [] => [[x]]
      | g :: gs => (x :: g) :: gs

/-- Model of Python `s.split('\n')`. -/
def pySplitNl (s : String) : List String :=
  (splitChar '\n' s.data).map String.mk

/-- Model of Python `''.join(lines)` (also used for the raw byte content
of a file given as its list of raw lines). -/
def rawJoin : List String → String
  | [] => ""
  | s :: rest => s ++ rawJoin rest

/-- Model of Python `line.startswith('>')` on an already-stripped line. -/
def startsWithGt (s : String) : Bool :=
  match s.data with
  | c :: _ => c = '>'
  | [] => false

/-- Model of Python `str.endswith(pat)`. -/
def pyEndsWith (s pat : String) : Bool :=
  pat.data.isSuffixOf s.data

/-- Model of Python `' '.join(cmd)` as used by `run_command`'s log line. -/
def cmdString : List String → String
  | [] => ""
  | [c] => c
  | c :: rest => c ++ " " ++ cmdString rest

/-- The statistics record produced by `get_file_stats`: the Python dict
`{'num_sequences': ..., 'total_length': ..., 'md5': ...}`.  The digest is
modelled as the exact byte stream fed to the hash object (the raw lines in
order), which is a faithful model of a deterministic content hash. -/
structure FileStats where
  num_sequences : Nat
  total_length : Nat
  md5 : String
deriving DecidableEq

/-- The loop of `get_file_stats`: one pass over the raw lines, keeping the
accumulated stripped residue lines of the current record (`cur`, appended in
order exactly as Python's `current_seq.append`), the running record count,
the running total length, and the running digest input.  Mirrors
`src/vcf/vcf_to_fasta.py:167-182` line by line, including the final flush of
a non-empty `current_seq`. -/
def statsLoop : List String → List String → Nat → Nat → String → Nat × Nat × String
  | [], cur, count, total, acc =>
    if cur.isEmpty then (count, total, acc)
    else (count, total + (rawJoin cur).length, acc)
  | raw :: rest, cur, count, total, acc =>
    let acc := acc ++ raw
    let line := pythonStrip raw
    if startsWithGt line then
      if cur.isEmpty then statsLoop rest [] (count + 1) total acc
      else statsLoop rest [] (count + 1) (total + (rawJoin cur).length) acc
    else statsLoop rest (cur ++ [line]) count total acc

/-- Model of `VCFtoFASTAPipeline.get_file_stats` applied to a file given as
its list of raw lines. -/
def get_file_stats (lines : List String) : FileStats :=
  let r := statsLoop lines [] 0 0 ""
  { num_sequences := r.1, total_length := r.2.1, md5 := r.2.2 }

/-- A well-formed FASTA file built from records, each a name and a list of
raw residue lines: the on-disk line sequence is, per record, the header line
`'>' + name + '\n'` followed by the record's residue lines. -/
def mkFasta : List (String × List String) → List String
  | [] => []
  | (name, seqs) :: rest => (">" ++ name ++ "\n") :: (seqs ++ mkFasta rest)

/-- The residue length of a record as `get_file_stats` accumulates it:
the length of the concatenation of the record's stripped residue lines. -/
def recLen (seqs : List String) : Nat :=
  (rawJoin (seqs.map pythonStrip)).length

/-- Result of running one external process: exit code and the captured
stdout/stderr streams (empty string models an uncaptured-but-silent or
captured-empty stream; which streams are actually captured is decided by
each call site below, as in the source). -/
structure ProcResult where
  returncode : Int
  stdout : String
  stderr : String
deriving DecidableEq

/-- Model of Python's `subprocess.CalledProcessError` as raised by
`subprocess.run(..., check=True)`: exit code, argument vector, and the
captured stdout/stderr (`none` when the corresponding stream was not
captured by the call site). -/
structure CalledProcessError where
  returncode : Int
  cmd : List String
  output : Option String
  stderr : Option String
deriving DecidableEq

/-- Model of `VCFtoFASTAPipeline.run_command`: given the outcome of the
spawned process, its argument vector, and the human-readable description,
returns the log lines it writes and either the successful result or the
re-raised `CalledProcessError`.  Mirrors `src/vcf/vcf_to_fasta.py:50-69`:
both streams are captured as text; on success the captured stdout (only)
is logged when non-empty; on failure the description and the captured
stderr are logged and the error is re-raised. -/
def run_command (res : ProcResult) (cmd : List String) (description : String) :
    List String × Except CalledProcessError ProcResult :=
  let base := ["Running: " ++ description, "Command: " ++ cmdString cmd]
  if res.returncode = 0 then
    (base ++ (if res.stdout ≠ "" then ["Output: " ++ res.stdout] else []), .ok res)
  else
    (base ++ ["ERROR: " ++ description ++ " failed", "Error message: " ++ res.stderr],
     .error { returncode := res.returncode, cmd := cmd,
              output := some res.stdout, stderr := some res.stderr })

/-- Model of `VCFtoFASTAPipeline.count_vcf_variants`
(`src/vcf/vcf_to_fasta.py:187-195`): runs `bcftools view -H` directly via
`subprocess.run` (text capture of stdout only, `check=True`, stderr not
captured, nothing logged) and returns
`len(result.stdout.strip().split('\n')) if result.stdout.strip() else 0`. -/
def count_vcf_variants (res : ProcResult) (vcf_path : String) :
    Except CalledProcessError Nat :=
  if res.returncode = 0 then
    let stripped := pythonStrip res.stdout
    .ok (if stripped ≠ "" then (pySplitNl stripped).length else 0)
  else
    .error { returncode := res.returncode, cmd := ["bcftools", "view", "-H", vcf_path],
             output := some res.stdout, stderr := none }

/-- The number of non-empty lines of a string, read off the specification's
words ("counts non-empty output lines") for comparison with what
`count_vcf_variants` actually computes. -/
def nonEmptyLineCount (s : String) : Nat :=
  ((pySplitNl s).filter (fun l => l ≠ "")).length

/-- Whether `pat` occurs as a contiguous sublist of `s`. -/
def listContainsSub (s pat : List Char) : Bool :=
  match s with
  | [] => pat.isEmpty
  | _ :: rest => pat.isPrefixOf s || listContainsSub rest pat

/-- Whether `pat` occurs as a substring of `s` (model of Python `pat in s`). -/
def containsStr (s pat : String) : Bool :=
  listContainsSub s.data pat.data

/-- Decidable equality for `Except` values, by cases on both sides. -/
instance instDecEqExcept {ε α : Type} [DecidableEq ε] [DecidableEq α] :
    DecidableEq (Except ε α) := fun a b =>
  match a, b with
  | .ok x, .ok y =>
    if h : x = y then .isTrue (by rw [h])
    else .isFalse (fun he => by cases he; exact h rfl)
  | .error x, .error y =>
    if h : x = y then .isTrue (by rw [h])
    else .isFalse (fun he => by cases he; exact h rfl)
  | .ok _, .error _ => .isFalse (fun he => by cases he)
  | .error _, .ok _ => .isFalse (fun he => by cases he)

/-- The filesystem: an association list from paths to file contents, each
content a list of raw lines.  A write shadows earlier entries. -/
abbrev FS := List (String × List String)

/-- Read a file: `open(path)` / `Path.exists` both consult this. -/
def FS.read (fs : FS) (p : String) : Option (List String) :=
  fs.lookup p

/-- Model of `Path.exists()`. -/
def FS.pathExists (fs : FS) (p : String) : Bool :=
  (fs.read p).isSome

/-- Model of `Path.stat().st_size`: the byte length of the file content. -/
def FS.size (fs : FS) (p : String) : Nat :=
  match fs.read p with
  | some lines => (rawJoin lines).length
  | none => 0

/-- Create or truncate-and-write a file. -/
def FS.write (fs : FS) (p : String) (content : List String) : FS :=
  (p, content) :: fs

/-- The outcomes of the external collaborators for one pipeline run: whether
each required tool's `--version` probe succeeds, and the process result of
each spawned stage command. -/
structure World where
  toolOk : String → Bool
  faidxRes : ProcResult
  bgzipRes : ProcResult
  tabixRes : ProcResult
  viewRes : ProcResult
  consensusRes : ProcResult

/-- Observable pipeline state threaded through the stages: the filesystem,
the argument vectors of every external process spawned so far (in order),
and the log lines written so far. -/
structure St where
  fs : FS
  spawned : List (List String)
  log : List String
deriving DecidableEq

/-- Pipeline failures: the raised-exception kinds of the source
(`FileNotFoundError` from opening a missing file, the `RuntimeError` listing
missing tools, and a propagated `subprocess.CalledProcessError`). -/
inductive PipelineError where
  | fileNotFound (path : String)
  | missingDependency (tools : List String)
  | toolFailure (e : CalledProcessError)
deriving DecidableEq

/-- The four required external tools (`src/vcf/vcf_to_fasta.py:74`). -/
def required_tools : List String := ["bcftools", "samtools", "bgzip", "tabix"]

/-- Model of `VCFtoFASTAPipeline.check_dependencies`
(`src/vcf/vcf_to_fasta.py:71-92`): probes every required tool, collects all
missing ones, and raises a single error naming them all when any is
missing. -/
def check_dependencies (w : World) (st : St) : St × Except PipelineError Unit :=
  let st := { st with
    spawned := st.spawned ++ required_tools.map (fun t => [t, "--version"]),
    log := st.log ++ ["Checking dependencies..."] }
  let missing := required_tools.filter (fun t => !(w.toolOk t))
  if missing.isEmpty then (st, .ok ())
  else (st, .error (.missingDependency missing))

/-- Modelled from the spec: the reference indexing collaborator
(`samtools faidx`) "takes a reference path, produces a sibling index
artifact with a fixed suffix", deterministically from its source. -/
def faiContent (p : String) : List String := ["faidx:" ++ p]

/-- Modelled from the spec: the compression collaborator (`bgzip -c`)
emits a compressed byte stream of the input file on standard output,
deterministically from the input content. -/
def gzipContent (orig : Option (List String)) : List String :=
  "BGZF\n" :: orig.getD []

/-- Modelled from the spec: the variant-file indexing collaborator
(`tabix -p vcf`) produces a sibling index artifact with a fixed suffix. -/
def tbiContent (p : String) : List String := ["tabix:" ++ p]

/-- Model of `VCFtoFASTAPipeline.index_fasta`
(`src/vcf/vcf_to_fasta.py:94-105`): no-op when the `.fai` artifact exists,
otherwise invoke the indexing collaborator through `run_command`. -/
def index_fasta (w : World) (fasta_path : String) (st : St) :
    St × Except PipelineError Unit :=
  let fai := fasta_path ++ ".fai"
  if st.fs.pathExists fai then
    ({ st with log := st.log ++ ["FASTA index already exists: " ++ fai] }, .ok ())
  else
    let cmd := ["samtools", "faidx", fasta_path]
    let rc := run_command w.faidxRes cmd "FASTA indexing"
    let st := { st with
      spawned := st.spawned ++ [cmd],
      log := st.log ++ ["Indexing FASTA file..."] ++ rc.1 }
    match rc.2 with
    | .ok _ => ({ st with fs := st.fs.write fai (faiContent fasta_path) }, .ok ())
    | .error e => (st, .error (.toolFailure e))

/-- First half of `compress_and_index_vcf`
(`src/vcf/vcf_to_fasta.py:109-142`): produce (or find) the compressed
variant artifact and return its path.  When the input is not already
compressed and no `.gz` artifact exists, the target file is opened for
writing (created/truncated) before `bgzip` runs, so a failed run leaves a
truncated artifact behind. -/
def ensure_compressed (w : World) (vcf_path : String) (st : St) :
    St × Except PipelineError String :=
  if pyEndsWith vcf_path ".gz" then
    ({ st with log := st.log ++ ["VCF is already compressed: " ++ vcf_path] },
     .ok vcf_path)
  else
    let gz := vcf_path ++ ".gz"
    if st.fs.pathExists gz then
      ({ st with log := st.log ++ ["Compressed VCF already exists: " ++ gz] },
       .ok gz)
    else
      let cmd := ["bgzip", "-c", vcf_path]
      let orig := st.fs.read vcf_path
      let st := { st with
        fs := st.fs.write gz [],
        spawned := st.spawned ++ [cmd],
        log := st.log ++ ["Compressing VCF file..."] }
      if w.bgzipRes.returncode = 0 then
        ({ st with fs := st.fs.write gz (gzipContent orig) }, .ok gz)
      else
        (st, .error (.toolFailure
          { returncode := w.bgzipRes.returncode, cmd := cmd,
            output := none, stderr := some w.bgzipRes.stderr }))

/-- Second half of `compress_and_index_vcf`
(`src/vcf/vcf_to_fasta.py:144-155`): ensure the `.tbi` index artifact
beside the compressed file, via `run_command`. -/
def index_vcf_tbi (w : World) (gz : String) (st : St) :
    St × Except PipelineError String :=
  let tbi := gz ++ ".tbi"
  if st.fs.pathExists tbi then
    ({ st with log := st.log ++ ["VCF index already exists: " ++ tbi] }, .ok gz)
  else
    let cmd := ["tabix", "-p", "vcf", gz]
    let rc := run_command w.tabixRes cmd "VCF indexing"
    let st := { st with
      spawned := st.spawned ++ [cmd],
      log := st.log ++ ["Indexing VCF file..."] ++ rc.1 }
    match rc.2 with
    | .ok _ => ({ st with fs := st.fs.write tbi (tbiContent gz) }, .ok gz)
    | .error e => (st, .error (.toolFailure e))

/-- Model of `VCFtoFASTAPipeline.compress_and_index_vcf`
(`src/vcf/vcf_to_fasta.py:107-155`): ensure the compressed artifact, then
(whichever branch produced it) ensure its index artifact; return the
compressed path for downstream use. -/
def compress_and_index_vcf (w : World) (vcf_path : String) (st : St) :
    St × Except PipelineError String :=
  match ensure_compressed w vcf_path st with
  | (st, .error e) => (st, .error e)
  | (st, .ok gz) => index_vcf_tbi w gz st

/-- The variant-count stage of `run` (`src/vcf/vcf_to_fasta.py:292`):
spawns `bcftools view -H` and delegates to `count_vcf_variants`. -/
def count_stage (w : World) (gz : String) (st : St) : St × Except PipelineError Nat :=
  let st := { st with spawned := st.spawned ++ [["bcftools", "view", "-H", gz]] }
  match count_vcf_variants w.viewRes gz with
  | .ok n => (st, .ok n)
  | .error e => (st, .error (.toolFailure e))

/-- The raw lines of a file written by streaming a byte string to disk
(Python `f.write` of the process stdout): split into lines, each keeping
its trailing newline. -/
def linesOf (s : String) : List String :=
  let rec reattach : List String → List String
    | [] => []
    | [last] => if last = "" then [] else [last]
    | x :: rest => (x ++ "\n") :: reattach rest
  reattach (pySplitNl s)

/-- Model of `VCFtoFASTAPipeline.apply_variants`
(`src/vcf/vcf_to_fasta.py:197-211`): the output file is opened for writing
(created/truncated) before `bcftools consensus` is spawned; on success its
stdout is the output file's content and any non-empty stderr is logged as
informational; on failure the truncated output file remains and the error
propagates. -/
def apply_variants (w : World) (fasta_path gz output_path : String) (st : St) :
    St × Except PipelineError Unit :=
  let cmd := ["bcftools", "consensus", "-f", fasta_path, gz]
  let st := { st with
    fs := st.fs.write output_path [],
    spawned := st.spawned ++ [cmd],
    log := st.log ++ ["Applying variants to reference..."] }
  if w.consensusRes.returncode = 0 then
    ({ st with
       fs := st.fs.write output_path (linesOf w.consensusRes.stdout),
       log := st.log ++
         (if w.consensusRes.stderr ≠ ""
          then ["bcftools stderr: " ++ w.consensusRes.stderr] else []) },
     .ok ())
  else
    (st, .error (.toolFailure
      { returncode := w.consensusRes.returncode, cmd := cmd,
        output := none, stderr := some w.consensusRes.stderr }))

/-- The validation report: the outcome of each logged check of
`validate_output`, the informational length delta, and the returned
verdict (`checks_passed`). -/
structure ValidationReport where
  check1 : Bool
  check2 : Bool
  check3 : Bool
  length_diff : Int
  verdict : Bool
deriving DecidableEq

/-- Model of `VCFtoFASTAPipeline.validate_output`
(`src/vcf/vcf_to_fasta.py:213-268`): computes input statistics, then output
statistics (opening a missing output file raises `FileNotFoundError` here,
before any check runs), then evaluates and reports the three checks
independently, latching `checks_passed` to `False` on each failing check
exactly as the source does, and returns `checks_passed`. -/
def validate_output (fasta_path output_path : String) (st : St) :
    St × Except PipelineError ValidationReport :=
  match st.fs.read fasta_path with
  | none => (st, .error (.fileNotFound fasta_path))
  | some inLines =>
    match st.fs.read output_path with
    | none => (st, .error (.fileNotFound output_path))
    | some outLines =>
      let input_stats := get_file_stats inLines
      let output_stats := get_file_stats outLines
      let c1 := input_stats.num_sequences == output_stats.num_sequences
      let c2 := !(input_stats.md5 == output_stats.md5)
      let c3 := st.fs.pathExists output_path && !(st.fs.size output_path == 0)
      let checks_passed := true
      let checks_passed := cond c1 checks_passed false
      let checks_passed := cond c2 checks_passed false
      let checks_passed := cond c3 checks_passed false
      ({ st with log := st.log ++ ["VALIDATION REPORT"] },
       .ok { check1 := c1, check2 := c2, check3 := c3,
             length_diff := (output_stats.total_length : Int) -
                            (input_stats.total_length : Int),
             verdict := checks_passed })

/-- Model of `VCFtoFASTAPipeline.run` (`src/vcf/vcf_to_fasta.py:270-311`):
the strictly sequential stage chain; any stage error propagates (the
`except` block logs and re-raises), and on success the validator's verdict
is returned to the caller. -/
def run (w : World) (fasta_path vcf_path output_path : String) (st : St) :
    St × Except PipelineError Bool :=
  match check_dependencies w st with
  | (st, .error e) => (st, .error e)
  | (st, .ok _) =>
    match index_fasta w fasta_path st with
    | (st, .error e) => (st, .error e)
    | (st, .ok _) =>
      match compress_and_index_vcf w vcf_path st with
      | (st, .error e) => (st, .error e)
      | (st, .ok gz) =>
        match count_stage w gz st with
        | (st, .error e) => (st, .error e)
        | (st, .ok _) =>
          match apply_variants w fasta_path gz output_path st with
          | (st, .error e) => (st, .error e)
          | (st, .ok _) =>
            match validate_output fasta_path output_path st with
            | (st, .error e) => (st, .error e)
            | (st, .ok report) => (st, .ok report.verdict)

/-- The boolean verdict returned by a completed pipeline run (`false` when
the run did not complete). -/
def runVerdict (w : World) (fasta_path vcf_path output_path : String) (st : St) : Bool :=
  match (run w fasta_path vcf_path output_path st).2 with
  | .ok b => b
  | .error _ => false

/-! ## Concrete fixtures used by the witnesses -/

/-- A world in which every tool is present and every collaborator succeeds;
the consensus output is byte-identical to the reference fixture, so the
validator's digest rule fails while every stage succeeds. -/
def allOkWorld : World :=
  { toolOk := fun _ => true,
    faidxRes := ⟨0, "", ""⟩,
    bgzipRes := ⟨0, "", ""⟩,
    tabixRes := ⟨0, "", ""⟩,
    viewRes := ⟨0, "chr1\t1\t.\tA\tT\n", ""⟩,
    consensusRes := ⟨0, ">r\nAC\n", ""⟩ }

/-- A world in which `tabix` is absent and everything else succeeds. -/
def noTabixWorld : World :=
  { allOkWorld with toolOk := fun t => !(t == "tabix") }

/-- Starting state: a reference and an uncompressed variant file on disk. -/
def stStart : St :=
  ⟨[("ref.fa", [">r\n", "AC\n"]), ("vars.vcf", ["##fileformat=VCFv4.2\n"])], [], []⟩

/-- State for the validator fixtures: a headerless whitespace input file and
an existing zero-size output file, so rules 1 and 2 pass and rule 3 fails. -/
def stZeroOut : St :=
  ⟨[("a.fa", [" \n"]), ("out.fa", [])], [], []⟩

/-- State for the missing-output fixture: only the input file exists. -/
def stNoOut : St :=
  ⟨[("a.fa", [">r\n"])], [], []⟩

/-! ## Helper lemmas -/

theorem dropWhile_append_gt (l : List Char) :
    (l ++ ['>']).dropWhile isPyWs = l.dropWhile isPyWs ++ ['>'] := by
  induction l with
  | nil => decide
  | cons c l ih =>
    rw [List.cons_append, List.dropWhile_cons, List.dropWhile_cons]
    by_cases h : isPyWs c = true
    · simp [h, ih]
    · simp [h]

theorem startsWithGt_strip_gtCons (l : List Char) :
    startsWithGt (pythonStrip ⟨'>' :: l⟩) = true := by
  have h1 : ('>' :: l).dropWhile isPyWs = '>' :: l := by
    rw [List.dropWhile_cons]; simp [isPyWs]
  have h2 : ('>' :: l).reverse = l.reverse ++ ['>'] := List.reverse_cons '>' l
  simp only [pythonStrip, startsWithGt, h1, h2, dropWhile_append_gt,
    List.reverse_append, List.reverse_cons, List.reverse_nil, List.nil_append,
    List.cons_append, List.singleton_append]
  decide

theorem startsWithGt_strip_header (s : String) :
    startsWithGt (pythonStrip (">" ++ s)) = true := by
  have h : (">" ++ s).data = '>' :: s.data := by
    rw [String.data_append]; rfl
  have h2 : pythonStrip (">" ++ s) = pythonStrip ⟨'>' :: s.data⟩ := by
    simp only [pythonStrip, h]
  rw [h2]; exact startsWithGt_strip_gtCons s.data

theorem rawJoin_append (x y : List String) :
    rawJoin (x ++ y) = rawJoin x ++ rawJoin y := by
  induction x with
  | nil => simp [rawJoin, String.empty_append]
  | cons s x ih => simp [rawJoin, ih, String.append_assoc]

theorem statsLoop_residues (seqs : List String) (rest cur : List String)
    (c t : Nat) (a : String)
    (h : ∀ l ∈ seqs, startsWithGt (pythonStrip l) = false) :
    statsLoop (seqs ++ rest) cur c t a =
      statsLoop rest (cur ++ seqs.map pythonStrip) c t (a ++ rawJoin seqs) := by
  induction seqs generalizing cur a with
  | nil => simp [rawJoin, String.append_empty]
  | cons l seqs ih =>
    have hl : startsWithGt (pythonStrip l) = false := h l (by simp)
    rw [List.cons_append]
    have step : statsLoop (l :: (seqs ++ rest)) cur c t a =
        statsLoop (seqs ++ rest) (cur ++ [pythonStrip l]) c t (a ++ l) := by
      simp [statsLoop, hl]
    rw [step, ih _ _ (fun x hx => h x (by simp [hx]))]
    simp [rawJoin, List.append_assoc, String.append_assoc]

theorem statsLoop_mkFasta (records : List (String × List String))
    (cur : List String) (c t : Nat) (a : String)
    (h : ∀ r ∈ records, ∀ l ∈ r.2, startsWithGt (pythonStrip l) = false) :
    statsLoop (mkFasta records) cur c t a =
      (c + records.length,
       t + (rawJoin cur).length + (records.map (fun r => recLen r.2)).sum,
       a ++ rawJoin (mkFasta records)) := by
  induction records generalizing cur c t a with
  | nil =>
    cases cur <;> simp [mkFasta, statsLoop, rawJoin, String.append_empty]
  | cons r rest ih =>
    obtain ⟨name, seqs⟩ := r
    have hhdr : startsWithGt (pythonStrip (">" ++ name ++ "\n")) = true := by
      rw [String.append_assoc]; exact startsWithGt_strip_header (name ++ "\n")
    have hseqs : ∀ l ∈ seqs, startsWithGt (pythonStrip l) = false :=
      fun l hl => h (name, seqs) (by simp) l hl
    have hrest : ∀ r ∈ rest, ∀ l ∈ r.2, startsWithGt (pythonStrip l) = false :=
      fun r hr l hl => h r (by simp [hr]) l hl
    have step : statsLoop (mkFasta ((name, seqs) :: rest)) cur c t a =
        statsLoop (seqs ++ mkFasta rest) [] (c + 1)
          (t + (rawJoin cur).length) (a ++ (">" ++ name ++ "\n")) := by
      cases cur <;> simp [mkFasta, statsLoop, hhdr, rawJoin]
    rw [step, statsLoop_residues seqs (mkFasta rest) [] _ _ _ hseqs,
      List.nil_append, ih _ _ _ _ hrest]
    simp only [Prod.mk.injEq, mkFasta, rawJoin, List.length_cons]
    refine ⟨by omega, ?_, ?_⟩
    · have : (rawJoin (seqs.map pythonStrip)).length = recLen seqs := rfl
      simp [this, List.map_cons, List.sum_cons]
      omega
    · simp [rawJoin_append, String.append_assoc]

theorem FS.read_write_self (fs : FS) (p : String) (v : List String) :
    (fs.write p v).read p = some v := by
  simp [FS.read, FS.write, List.lookup]

theorem FS.read_write_ne (fs : FS) (p q : String) (v : List String) (h : p ≠ q) :
    (fs.write q v).read p = fs.read p := by
  have hb : (p == q) = false := beq_eq_false_iff_ne.mpr h
  simp [FS.read, FS.write, List.lookup, hb]

theorem FS.read_write_isSome (fs : FS) (p q : String) (v : List String)
    (h : (fs.read p).isSome = true) : ((fs.write q v).read p).isSome = true := by
  by_cases hpq : p = q
  · subst hpq; rw [FS.read_write_self]; rfl
  · rw [FS.read_write_ne _ _ _ _ hpq]; exact h

theorem cond_latch (a b c : Bool) :
    cond c (cond b (cond a true false) false) false = (a && b && c) := by
  cases a <;> cases b <;> cases c <;> rfl

theorem statsLoop_digest (lines : List String) :
    ∀ cur c t a, (statsLoop lines cur c t a).2.2 = a ++ rawJoin lines := by
  induction lines with
  | nil =>
    intro cur c t a
    cases cur <;> simp [statsLoop, rawJoin, String.append_empty]
  | cons raw rest ih =>
    intro cur c t a
    by_cases h : startsWithGt (pythonStrip raw) = true
    · by_cases hc : cur.isEmpty <;>
        simp [statsLoop, h, hc, ih, rawJoin, String.append_assoc]
    · simp [statsLoop, h, ih, rawJoin, String.append_assoc]

theorem length_append_ne (p t : String) (h : t.length ≠ 0) : p ++ t ≠ p := by
  intro he
  have := congrArg String.length he
  rw [String.length_append] at this
  omega

/-! ## Claim theorems -/

/-- C1: for every well-formed sequence file, `get_file_stats` flushes the
length of each record's concatenated (stripped) residue lines on the next
header and flushes the last record at end of stream, so the record count is
the number of records and the total length is the sum of the records'
residue lengths; in particular a file with residue lengths `[10, 0, 5]`
(zero-length middle record) yields `total_length = 15` and
`num_sequences = 3`. -/
theorem get_file_stats_flush :
    (∀ records : List (String × List String),
      records.all (fun r => r.2.all (fun l => !(startsWithGt (pythonStrip l)))) = true →
      (get_file_stats (mkFasta records)).num_sequences = records.length ∧
      (get_file_stats (mkFasta records)).total_length =
        (records.map (fun r => recLen r.2)).sum) ∧
    ((get_file_stats (mkFasta
        [("r1", ["AAAAAAAAAA\n"]), ("r2", []), ("r3", ["CCCCC\n"])])).total_length
          = 15 ∧
     (get_file_stats (mkFasta
        [("r1", ["AAAAAAAAAA\n"]), ("r2", []), ("r3", ["CCCCC\n"])])).num_sequences
          = 3) := by
  refine ⟨fun records h => ?_, by decide, by decide⟩
  have h2 : ∀ r ∈ records, ∀ l ∈ r.2, startsWithGt (pythonStrip l) = false := by
    intro r hr l hl
    have := List.all_eq_true.mp (List.all_eq_true.mp h r hr) l hl
    simpa using this
  have hs := statsLoop_mkFasta records [] 0 0 "" h2
  unfold get_file_stats
  rw [hs]
  simp [rawJoin]

/-- Witness for C1: the general flush theorem applied to the concrete
three-record file with residue lengths 10, 0 and 5. -/
theorem get_file_stats_flush_witness :
    ([("r1", ["AAAAAAAAAA\n"]), ("r2", []), ("r3", ["CCCCC\n"])] :
        List (String × List String)).all
          (fun r => r.2.all (fun l => !(startsWithGt (pythonStrip l)))) = true ∧
    ((get_file_stats (mkFasta
        [("r1", ["AAAAAAAAAA\n"]), ("r2", []), ("r3", ["CCCCC\n"])])).num_sequences
          = ([("r1", ["AAAAAAAAAA\n"]), ("r2", []), ("r3", ["CCCCC\n"])] :
              List (String × List String)).length ∧
     (get_file_stats (mkFasta
        [("r1", ["AAAAAAAAAA\n"]), ("r2", []), ("r3", ["CCCCC\n"])])).total_length
          = (([("r1", ["AAAAAAAAAA\n"]), ("r2", []), ("r3", ["CCCCC\n"])] :
              List (String × List String)).map (fun r => recLen r.2)).sum) :=
  ⟨by decide, get_file_stats_flush.1 _ (by decide)⟩

/-- C8: `get_file_stats` is deterministic (a pure function of the file, so
two applications to the same file agree), and the content digest depends
only on the file's byte content: two files with identical bytes (even split
differently into lines) have equal digests. -/
theorem get_file_stats_deterministic (l1 l2 : List String) :
    (get_file_stats l1 = get_file_stats l1) ∧
    (rawJoin l1 = rawJoin l2 →
      (get_file_stats l1).md5 = (get_file_stats l2).md5) := by
  refine ⟨rfl, fun h => ?_⟩
  show (statsLoop l1 [] 0 0 "").2.2 = (statsLoop l2 [] 0 0 "").2.2
  rw [statsLoop_digest, statsLoop_digest, h]

/-- Witness for C8: two byte-for-byte identical files with different line
splits have equal digests. -/
theorem get_file_stats_deterministic_witness :
    rawJoin [">r\nAC"] = rawJoin [">r\n", "AC"] ∧
    (get_file_stats [">r\nAC"]).md5 = (get_file_stats [">r\n", "AC"]).md5 :=
  ⟨by decide, (get_file_stats_deterministic [">r\nAC"] [">r\n", "AC"]).2 (by decide)⟩

/-- C2: when both statistics computations succeed, `validate_output` reports
the three rules independently (each check's reported outcome is exactly its
own rule's condition) and returns as verdict the conjunction of the three
checks, so a zero-size output with rules 1 and 2 passing yields a false
verdict while checks 1 and 2 are still reported as passed. -/
theorem validate_output_rules (st : St) (fasta out : String)
    (inL outL : List String)
    (hin : st.fs.read fasta = some inL) (hout : st.fs.read out = some outL) :
    (validate_output fasta out st).2 = .ok
      { check1 := (get_file_stats inL).num_sequences ==
                  (get_file_stats outL).num_sequences,
        check2 := !((get_file_stats inL).md5 == (get_file_stats outL).md5),
        check3 := st.fs.pathExists out && !(st.fs.size out == 0),
        length_diff := ((get_file_stats outL).total_length : Int) -
                       ((get_file_stats inL).total_length : Int),
        verdict := ((get_file_stats inL).num_sequences ==
                    (get_file_stats outL).num_sequences) &&
                   (!((get_file_stats inL).md5 == (get_file_stats outL).md5)) &&
                   (st.fs.pathExists out && !(st.fs.size out == 0)) } := by
  simp only [validate_output, hin, hout]
  rw [cond_latch]

/-- Witness for C2: on the zero-size-output fixture rules 1 and 2 pass,
rule 3 fails, and the verdict is false while checks 1 and 2 are reported as
passed. -/
theorem validate_output_rules_witness :
    FS.read stZeroOut.fs "a.fa" = some [" \n"] ∧
    FS.read stZeroOut.fs "out.fa" = some [] ∧
    (validate_output "a.fa" "out.fa" stZeroOut).2 = .ok
      { check1 := (get_file_stats [" \n"]).num_sequences ==
                  (get_file_stats ([] : List String)).num_sequences,
        check2 := !((get_file_stats [" \n"]).md5 ==
                    (get_file_stats ([] : List String)).md5),
        check3 := stZeroOut.fs.pathExists "out.fa" &&
                  !(stZeroOut.fs.size "out.fa" == 0),
        length_diff := ((get_file_stats ([] : List String)).total_length : Int) -
                       ((get_file_stats [" \n"]).total_length : Int),
        verdict := ((get_file_stats [" \n"]).num_sequences ==
                    (get_file_stats ([] : List String)).num_sequences) &&
                   (!((get_file_stats [" \n"]).md5 ==
                      (get_file_stats ([] : List String)).md5)) &&
                   (stZeroOut.fs.pathExists "out.fa" &&
                    !(stZeroOut.fs.size "out.fa" == 0)) } ∧
    (validate_output "a.fa" "out.fa" stZeroOut).2 = .ok
      { check1 := true, check2 := true, check3 := false,
        length_diff := 0, verdict := false } :=
  ⟨by decide, by decide,
   validate_output_rules stZeroOut "a.fa" "out.fa" [" \n"] [] (by decide) (by decide),
   by decide⟩

/-- C10: if the output path does not exist when the validator runs,
`validate_output` raises the missing-file error (from computing statistics
on the missing output) instead of returning a false verdict; and a returned
report with check 3 failed can only arise when the output file exists with
zero size. -/
theorem validate_output_missing (st : St) (fasta out : String)
    (inL : List String) (r : ValidationReport)
    (hin : st.fs.read fasta = some inL) :
    (st.fs.read out = none →
      (validate_output fasta out st).2 = .error (.fileNotFound out)) ∧
    ((validate_output fasta out st).2 = .ok r → r.check3 = false →
      st.fs.pathExists out = true ∧ st.fs.size out = 0) := by
  constructor
  · intro hnone
    simp [validate_output, hin, hnone]
  · intro hok h3
    cases hout : st.fs.read out with
    | none => simp [validate_output, hin, hout] at hok
    | some outL =>
      have hex : st.fs.pathExists out = true := by
        simp [FS.pathExists, hout]
      simp only [validate_output, hin, hout] at hok
      have hr := (Except.ok.injEq _ _).mp hok
      have h3' : (st.fs.pathExists out && !(st.fs.size out == 0)) = false := by
        rw [← h3, ← hr]
      rw [hex] at h3'
      simp at h3'
      exact ⟨hex, h3'⟩

/-- Witness for C10: with only the input file on disk, the validator raises
the missing-file error naming the output path. -/
theorem validate_output_missing_witness :
    FS.read stNoOut.fs "a.fa" = some [">r\n"] ∧
    (validate_output "a.fa" "out.fa" stNoOut).2 = .error (.fileNotFound "out.fa") :=
  ⟨by decide,
   (validate_output_missing stNoOut "a.fa" "out.fa" [">r\n"]
      { check1 := false, check2 := false, check3 := false,
        length_diff := 0, verdict := false } (by decide)).1 (by decide)⟩

/-- C3 counterexample: on a successful run with empty stdout and non-empty
stderr, `run_command` does not log the captured stderr — the log is exactly
the two preamble lines, and no log entry contains the stderr text — so the
claim that on success the captured stderr is logged when non-empty is false
at this input. -/
theorem run_command_stderr_unlogged :
    (run_command ⟨0, "", "tool warning"⟩
        ["samtools", "faidx", "ref.fa"] "FASTA indexing").2 =
      .ok ⟨0, "", "tool warning"⟩ ∧
    (run_command ⟨0, "", "tool warning"⟩
        ["samtools", "faidx", "ref.fa"] "FASTA indexing").1 =
      ["Running: FASTA indexing", "Command: samtools faidx ref.fa"] ∧
    ((run_command ⟨0, "", "tool warning"⟩
        ["samtools", "faidx", "ref.fa"] "FASTA indexing").1.all
      (fun e => !(containsStr e "tool warning"))) = true := by decide

/-- C3 (amended): on non-zero exit, `run_command` logs the description and
the captured stderr and re-raises the process failure carrying the command,
exit code, and both captured streams; on success (zero exit) it returns the
captured result and logs the captured stdout when non-empty — the captured
stderr is not logged on success. -/
theorem run_command_contract (res : ProcResult) (cmd : List String) (d : String) :
    (res.returncode ≠ 0 →
      (run_command res cmd d).2 = .error
        { returncode := res.returncode, cmd := cmd,
          output := some res.stdout, stderr := some res.stderr } ∧
      ("ERROR: " ++ d ++ " failed") ∈ (run_command res cmd d).1 ∧
      ("Error message: " ++ res.stderr) ∈ (run_command res cmd d).1) ∧
    (res.returncode = 0 →
      (run_command res cmd d).2 = .ok res ∧
      (run_command res cmd d).1 =
        ["Running: " ++ d, "Command: " ++ cmdString cmd] ++
        (if res.stdout ≠ "" then ["Output: " ++ res.stdout] else [])) := by
  constructor
  · intro h
    refine ⟨by simp [run_command, h], by simp [run_command, h], by simp [run_command, h]⟩
  · intro h
    exact ⟨by simp [run_command, h], by simp [run_command, h]⟩

/-- Witness for C3: the amended contract at a failing `tabix` run. -/
theorem run_command_contract_witness :
    ((3 : Int) ≠ 0 →
      (run_command ⟨3, "", "tbx_index_build failed"⟩
          ["tabix", "-p", "vcf", "vars.vcf.gz"] "VCF indexing").2 = .error
        { returncode := 3, cmd := ["tabix", "-p", "vcf", "vars.vcf.gz"],
          output := some "", stderr := some "tbx_index_build failed" } ∧
      ("ERROR: " ++ "VCF indexing" ++ " failed") ∈
        (run_command ⟨3, "", "tbx_index_build failed"⟩
          ["tabix", "-p", "vcf", "vars.vcf.gz"] "VCF indexing").1 ∧
      ("Error message: " ++ "tbx_index_build failed") ∈
        (run_command ⟨3, "", "tbx_index_build failed"⟩
          ["tabix", "-p", "vcf", "vars.vcf.gz"] "VCF indexing").1) ∧
    ((3 : Int) = 0 →
      (run_command ⟨3, "", "tbx_index_build failed"⟩
          ["tabix", "-p", "vcf", "vars.vcf.gz"] "VCF indexing").2 =
        .ok ⟨3, "", "tbx_index_build failed"⟩ ∧
      (run_command ⟨3, "", "tbx_index_build failed"⟩
          ["tabix", "-p", "vcf", "vars.vcf.gz"] "VCF indexing").1 =
        ["Running: " ++ "VCF indexing",
         "Command: " ++ cmdString ["tabix", "-p", "vcf", "vars.vcf.gz"]] ++
        (if ("" : String) ≠ "" then ["Output: " ++ ""] else [])) :=
  run_command_contract ⟨3, "", "tbx_index_build failed"⟩
    ["tabix", "-p", "vcf", "vars.vcf.gz"] "VCF indexing"

/-- C4 counterexample: with captured stdout `"a\n\nb\n"` (an interior blank
line) `count_vcf_variants` returns 3, not the number 2 of non-empty output
lines; and its failure path is not the Command Executor's — the raised
error carries no captured stderr, while `run_command` on the same outcome
carries it. -/
theorem count_vcf_variants_counterexample :
    count_vcf_variants ⟨0, "a\n\nb\n", ""⟩ "vars.vcf.gz" = .ok 3 ∧
    nonEmptyLineCount "a\n\nb\n" = 2 ∧
    count_vcf_variants ⟨2, "", "index missing"⟩ "vars.vcf.gz" = .error
      { returncode := 2, cmd := ["bcftools", "view", "-H", "vars.vcf.gz"],
        output := some "", stderr := none } ∧
    (run_command ⟨2, "", "index missing"⟩
        ["bcftools", "view", "-H", "vars.vcf.gz"] "Counting variants").2 = .error
      { returncode := 2, cmd := ["bcftools", "view", "-H", "vars.vcf.gz"],
        output := some "", stderr := some "index missing" } := by decide

/-- C4 (amended): `count_vcf_variants` runs the listing collaborator
directly via `subprocess.run` in text-capture mode (not through
`run_command`; stderr is not captured); on zero exit it returns 0 when the
captured stdout is empty or whitespace, and otherwise the number of
newline-separated segments of the stripped stdout — which equals the number
of non-empty lines whenever no line of the stripped output is empty; on
non-zero exit it raises the process failure with no captured stderr. -/
theorem count_vcf_variants_correct (res : ProcResult) (p : String) :
    (res.returncode = 0 → pythonStrip res.stdout = "" →
      count_vcf_variants res p = .ok 0) ∧
    (res.returncode = 0 →
      (pySplitNl (pythonStrip res.stdout)).all (fun l => !(l == "")) = true →
      count_vcf_variants res p = .ok (nonEmptyLineCount (pythonStrip res.stdout))) ∧
    (res.returncode ≠ 0 →
      count_vcf_variants res p = .error
        { returncode := res.returncode, cmd := ["bcftools", "view", "-H", p],
          output := some res.stdout, stderr := none }) := by
  refine ⟨fun h0 hs => ?_, fun h0 hne => ?_, fun h0 => ?_⟩
  · simp [count_vcf_variants, h0, hs]
  · have hall : ∀ l ∈ pySplitNl (pythonStrip res.stdout), l ≠ "" := by
      intro l hl
      have := List.all_eq_true.mp hne l hl
      simpa using this
    have hne2 : pythonStrip res.stdout ≠ "" := by
      intro he
      have hmem : "" ∈ pySplitNl (pythonStrip res.stdout) := by
        rw [he]; decide
      exact hall "" hmem rfl
    have hfilter : (pySplitNl (pythonStrip res.stdout)).filter
        (fun l => !decide (l = "")) = pySplitNl (pythonStrip res.stdout) :=
      List.filter_eq_self.mpr (fun a ha => by simp [hall a ha])
    simp only [count_vcf_variants, h0, nonEmptyLineCount]
    simp [hne2, hfilter]
  · simp [count_vcf_variants, h0]

/-- Witness for C4: a two-variant listing with no blank lines is counted as
its two non-empty lines, and a failing listing raises the process error. -/
theorem count_vcf_variants_correct_witness :
    ((0 : Int) = 0 → pythonStrip "chr1\t1\nchr1\t5\n" = "" →
      count_vcf_variants ⟨0, "chr1\t1\nchr1\t5\n", ""⟩ "vars.vcf.gz" = .ok 0) ∧
    ((0 : Int) = 0 →
      (pySplitNl (pythonStrip "chr1\t1\nchr1\t5\n")).all (fun l => !(l == "")) = true →
      count_vcf_variants ⟨0, "chr1\t1\nchr1\t5\n", ""⟩ "vars.vcf.gz" =
        .ok (nonEmptyLineCount (pythonStrip "chr1\t1\nchr1\t5\n"))) ∧
    ((0 : Int) ≠ 0 →
      count_vcf_variants ⟨0, "chr1\t1\nchr1\t5\n", ""⟩ "vars.vcf.gz" = .error
        { returncode := 0, cmd := ["bcftools", "view", "-H", "vars.vcf.gz"],
          output := some "chr1\t1\nchr1\t5\n", stderr := none }) :=
  count_vcf_variants_correct ⟨0, "chr1\t1\nchr1\t5\n", ""⟩ "vars.vcf.gz"

/-- C5: when the index artifact is absent and the indexing collaborator
succeeds, `index_fasta` creates the artifact at the derived `.fai` path and
running it twice performs the external index operation exactly once: the
first call spawns the single `samtools faidx` command, and the second call
is a no-op (same filesystem, nothing further spawned) because the artifact
already exists. -/
theorem index_fasta_idempotent (w : World) (p : String) (st : St)
    (h1 : st.fs.pathExists (p ++ ".fai") = false)
    (h2 : w.faidxRes.returncode = 0) :
    (index_fasta w p st).2 = .ok () ∧
    (index_fasta w p st).1.fs.read (p ++ ".fai") = some (faiContent p) ∧
    (index_fasta w p st).1.spawned = st.spawned ++ [["samtools", "faidx", p]] ∧
    (index_fasta w p (index_fasta w p st).1).2 = .ok () ∧
    (index_fasta w p (index_fasta w p st).1).1.fs = (index_fasta w p st).1.fs ∧
    (index_fasta w p (index_fasta w p st).1).1.spawned =
      (index_fasta w p st).1.spawned := by
  have e1 : index_fasta w p st =
      ({ st with
          fs := st.fs.write (p ++ ".fai") (faiContent p),
          spawned := st.spawned ++ [["samtools", "faidx", p]],
          log := st.log ++ ["Indexing FASTA file..."] ++
            (run_command w.faidxRes ["samtools", "faidx", p] "FASTA indexing").1 },
        .ok ()) := by
    simp [index_fasta, h1, run_command, h2]
  have hx : ((index_fasta w p st).1).fs.pathExists (p ++ ".fai") = true := by
    rw [e1]
    simp [FS.pathExists, FS.read_write_self]
  have e2 : index_fasta w p (index_fasta w p st).1 =
      ({ (index_fasta w p st).1 with
          log := (index_fasta w p st).1.log ++
            ["FASTA index already exists: " ++ (p ++ ".fai")] },
        .ok ()) := by
    generalize (index_fasta w p st).1 = st1 at hx ⊢
    simp [index_fasta, hx]
  refine ⟨by rw [e1], ?_, by rw [e1], by rw [e2], by rw [e2], by rw [e2]⟩
  rw [e1]
  exact FS.read_write_self _ _ _

/-- Witness for C5: indexing the reference fixture twice. -/
theorem index_fasta_idempotent_witness :
    (index_fasta allOkWorld "ref.fa" stStart).2 = .ok () ∧
    (index_fasta allOkWorld "ref.fa" stStart).1.fs.read ("ref.fa" ++ ".fai") =
      some (faiContent "ref.fa") ∧
    (index_fasta allOkWorld "ref.fa" stStart).1.spawned =
      stStart.spawned ++ [["samtools", "faidx", "ref.fa"]] ∧
    (index_fasta allOkWorld "ref.fa"
      (index_fasta allOkWorld "ref.fa" stStart).1).2 = .ok () ∧
    (index_fasta allOkWorld "ref.fa"
        (index_fasta allOkWorld "ref.fa" stStart).1).1.fs =
      (index_fasta allOkWorld "ref.fa" stStart).1.fs ∧
    (index_fasta allOkWorld "ref.fa"
        (index_fasta allOkWorld "ref.fa" stStart).1).1.spawned =
      (index_fasta allOkWorld "ref.fa" stStart).1.spawned :=
  index_fasta_idempotent allOkWorld "ref.fa" stStart (by decide) (by decide)

/-- C7: when one or more required tools are absent, the pipeline run raises
a single missing-dependency failure carrying every missing tool (each
missing tool is named in the carried list), and the only processes spawned
before the failure are the dependency probes themselves — no process of any
later pipeline stage is spawned. -/
theorem missing_dependency_aborts (w : World) (fasta vcf out : String) (st : St)
    (h : (required_tools.filter (fun t => !(w.toolOk t))).isEmpty = false) :
    (run w fasta vcf out st).2 =
      .error (.missingDependency
        (required_tools.filter (fun t => !(w.toolOk t)))) ∧
    (run w fasta vcf out st).1.spawned =
      st.spawned ++ required_tools.map (fun t => [t, "--version"]) ∧
    required_tools.all (fun t => w.toolOk t ||
      (required_tools.filter (fun u => !(w.toolOk u))).elem t) = true := by
  have e : check_dependencies w st =
      ({ st with
          spawned := st.spawned ++ required_tools.map (fun t => [t, "--version"]),
          log := st.log ++ ["Checking dependencies..."] },
        .error (.missingDependency
          (required_tools.filter (fun t => !(w.toolOk t))))) := by
    simp [check_dependencies, h]
  refine ⟨by simp [run, e], by simp [run, e], ?_⟩
  refine List.all_eq_true.mpr (fun t ht => ?_)
  by_cases hw : w.toolOk t = true
  · simp [hw]
  · have hw' : w.toolOk t = false := by simpa using hw
    simp only [hw', Bool.false_or]
    have : t ∈ required_tools.filter (fun u => !(w.toolOk u)) :=
      List.mem_filter.mpr ⟨ht, by simp [hw']⟩
    simpa [List.elem_iff] using this

/-- Witness for C7: with `tabix` absent, the run aborts with the
missing-dependency error naming exactly `tabix`, after spawning only the
four version probes. -/
theorem missing_dependency_aborts_witness :
    ((run noTabixWorld "ref.fa" "vars.vcf" "out.fa" stStart).2 =
      .error (.missingDependency
        (required_tools.filter (fun t => !(noTabixWorld.toolOk t)))) ∧
    (run noTabixWorld "ref.fa" "vars.vcf" "out.fa" stStart).1.spawned =
      stStart.spawned ++ required_tools.map (fun t => [t, "--version"]) ∧
    required_tools.all (fun t => noTabixWorld.toolOk t ||
      (required_tools.filter (fun u => !(noTabixWorld.toolOk u))).elem t) = true) ∧
    required_tools.filter (fun t => !(noTabixWorld.toolOk t)) = ["tabix"] :=
  ⟨missing_dependency_aborts noTabixWorld "ref.fa" "vars.vcf" "out.fa" stStart
      (by decide),
   by decide⟩

theorem check_dependencies_ok (w : World) (st : St)
    (h : required_tools.all (fun t => w.toolOk t) = true) :
    (check_dependencies w st).2 = .ok () := by
  have hf : required_tools.filter (fun t => !(w.toolOk t)) = [] :=
    List.filter_eq_nil_iff.mpr (fun a ha => by simp [List.all_eq_true.mp h a ha])
  simp [check_dependencies, hf]

theorem check_dependencies_fs (w : World) (st : St) :
    (check_dependencies w st).1.fs = st.fs := by
  unfold check_dependencies
  dsimp only
  split <;> rfl

theorem index_fasta_ok (w : World) (p : String) (st : St)
    (h : w.faidxRes.returncode = 0) :
    (index_fasta w p st).2 = .ok () := by
  unfold index_fasta
  dsimp only
  split
  · rfl
  · have e : (run_command w.faidxRes ["samtools", "faidx", p] "FASTA indexing").2
        = .ok w.faidxRes := by simp [run_command, h]
    rw [e]

theorem index_fasta_fs_isSome (w : World) (p : String) (st : St) (q : String)
    (h : (st.fs.read q).isSome = true) :
    ((index_fasta w p st).1.fs.read q).isSome = true := by
  unfold index_fasta
  dsimp only
  split
  · exact h
  · split
    · exact FS.read_write_isSome _ _ _ _ h
    · exact h

theorem index_fasta_read_ne (w : World) (p : String) (st : St) (q : String)
    (hq : q ≠ p ++ ".fai") :
    (index_fasta w p st).1.fs.read q = st.fs.read q := by
  unfold index_fasta
  dsimp only
  split
  · rfl
  · split
    · exact FS.read_write_ne _ _ _ _ hq
    · rfl

theorem ensure_compressed_ok (w : World) (v : String) (st : St)
    (h : w.bgzipRes.returncode = 0) :
    ∃ gz st', ensure_compressed w v st = (st', .ok gz) := by
  unfold ensure_compressed
  dsimp only
  split
  · exact ⟨_, _, rfl⟩
  · split
    · exact ⟨_, _, rfl⟩
    · exact ⟨_, _, rfl⟩

theorem ensure_compressed_val (w : World) (v : String) (st st' : St) (gz : String)
    (e : ensure_compressed w v st = (st', .ok gz)) : gz = v ∨ gz = v ++ ".gz" := by
  unfold ensure_compressed at e
  dsimp only at e
  split at e
  · injection e with e1 e2; injection e2 with e3; exact Or.inl e3.symm
  · split at e
    · injection e with e1 e2; injection e2 with e3; exact Or.inr e3.symm
    · split at e
      · injection e with e1 e2; injection e2 with e3; exact Or.inr e3.symm
      · injection e with e1 e2; injection e2

theorem ensure_compressed_fs_isSome (w : World) (v : String) (st : St) (q : String)
    (h : (st.fs.read q).isSome = true) :
    ((ensure_compressed w v st).1.fs.read q).isSome = true := by
  unfold ensure_compressed
  dsimp only
  split
  · exact h
  · split
    · exact h
    · split
      · exact FS.read_write_isSome _ _ _ _ (FS.read_write_isSome _ _ _ _ h)
      · exact FS.read_write_isSome _ _ _ _ h

theorem ensure_compressed_read_ne (w : World) (v : String) (st : St) (q : String)
    (hq : q ≠ v ++ ".gz") :
    (ensure_compressed w v st).1.fs.read q = st.fs.read q := by
  unfold ensure_compressed
  dsimp only
  split
  · rfl
  · split
    · rfl
    · split
      · rw [FS.read_write_ne _ _ _ _ hq, FS.read_write_ne _ _ _ _ hq]
      · rw [FS.read_write_ne _ _ _ _ hq]

theorem ensure_compressed_creates (w : World) (v : String) (st : St)
    (hne : pyEndsWith v ".gz" = false) (h3 : w.bgzipRes.returncode = 0) :
    (ensure_compressed w v st).2 = .ok (v ++ ".gz") ∧
    ((ensure_compressed w v st).1.fs.read (v ++ ".gz")).isSome = true := by
  have hne' : ¬(pyEndsWith v ".gz" = true) := by simp [hne]
  unfold ensure_compressed
  dsimp only
  rw [if_neg hne', if_pos h3]
  split
  · refine ⟨rfl, ?_⟩
    rename_i hex
    exact hex
  · refine ⟨rfl, ?_⟩
    rw [FS.read_write_self]
    rfl

theorem index_vcf_tbi_ok (w : World) (gz : String) (st : St)
    (h : w.tabixRes.returncode = 0) :
    (index_vcf_tbi w gz st).2 = .ok gz := by
  unfold index_vcf_tbi
  dsimp only
  split
  · rfl
  · have e : (run_command w.tabixRes ["tabix", "-p", "vcf", gz] "VCF indexing").2
        = .ok w.tabixRes := by simp [run_command, h]
    rw [e]

theorem index_vcf_tbi_fs_isSome (w : World) (gz : String) (st : St) (q : String)
    (h : (st.fs.read q).isSome = true) :
    ((index_vcf_tbi w gz st).1.fs.read q).isSome = true := by
  unfold index_vcf_tbi
  dsimp only
  split
  · exact h
  · split
    · exact FS.read_write_isSome _ _ _ _ h
    · exact h

theorem index_vcf_tbi_read_ne (w : World) (gz : String) (st : St) (q : String)
    (hq : q ≠ gz ++ ".tbi") :
    (index_vcf_tbi w gz st).1.fs.read q = st.fs.read q := by
  unfold index_vcf_tbi
  dsimp only
  split
  · rfl
  · split
    · exact FS.read_write_ne _ _ _ _ hq
    · rfl

theorem compress_ok (w : World) (v : String) (st : St)
    (h3 : w.bgzipRes.returncode = 0) (h4 : w.tabixRes.returncode = 0) :
    ∃ gz, (compress_and_index_vcf w v st).2 = .ok gz := by
  obtain ⟨gz, st1, e⟩ := ensure_compressed_ok w v st h3
  refine ⟨gz, ?_⟩
  unfold compress_and_index_vcf
  rw [e]
  exact index_vcf_tbi_ok w gz st1 h4

theorem compress_fs_isSome (w : World) (v : String) (st : St) (q : String)
    (h : (st.fs.read q).isSome = true) :
    ((compress_and_index_vcf w v st).1.fs.read q).isSome = true := by
  unfold compress_and_index_vcf
  rcases e : ensure_compressed w v st with ⟨st1, r⟩
  have h1 : (st1.fs.read q).isSome = true := by
    have hh := ensure_compressed_fs_isSome w v st q h
    rw [e] at hh; exact hh
  cases r with
  | error er => exact h1
  | ok gz => exact index_vcf_tbi_fs_isSome w gz st1 q h1

theorem compress_read_ne (w : World) (v : String) (st : St) (q : String)
    (hq1 : q ≠ v ++ ".gz") (hq2 : q ≠ v ++ ".tbi")
    (hq3 : q ≠ v ++ ".gz" ++ ".tbi") :
    (compress_and_index_vcf w v st).1.fs.read q = st.fs.read q := by
  unfold compress_and_index_vcf
  rcases e : ensure_compressed w v st with ⟨st1, r⟩
  have hp : st1.fs.read q = st.fs.read q := by
    have hh := ensure_compressed_read_ne w v st q hq1
    rw [e] at hh; exact hh
  cases r with
  | error er => exact hp
  | ok gz =>
    have hv := ensure_compressed_val w v st st1 gz e
    have hq : q ≠ gz ++ ".tbi" := by
      rcases hv with rfl | rfl
      · exact hq2
      · exact hq3
    rw [index_vcf_tbi_read_ne w gz st1 q hq, hp]

theorem count_stage_ok (w : World) (gz : String) (st : St)
    (h : w.viewRes.returncode = 0) :
    ∃ n, (count_stage w gz st).2 = .ok n := by
  unfold count_stage count_vcf_variants
  dsimp only
  rw [if_pos h]
  exact ⟨_, rfl⟩

theorem count_stage_fs (w : World) (gz : String) (st : St) :
    (count_stage w gz st).1.fs = st.fs := by
  unfold count_stage
  dsimp only
  split <;> rfl

theorem apply_variants_ok (w : World) (f gz o : String) (st : St)
    (h : w.consensusRes.returncode = 0) :
    (apply_variants w f gz o st).2 = .ok () := by
  unfold apply_variants
  dsimp only
  rw [if_pos h]

theorem apply_variants_read_out (w : World) (f gz o : String) (st : St)
    (h : w.consensusRes.returncode = 0) :
    (apply_variants w f gz o st).1.fs.read o =
      some (linesOf w.consensusRes.stdout) := by
  unfold apply_variants
  dsimp only
  rw [if_pos h]
  exact FS.read_write_self _ _ _

theorem apply_variants_fs_isSome (w : World) (f gz o : String) (st : St) (q : String)
    (h : (st.fs.read q).isSome = true) :
    ((apply_variants w f gz o st).1.fs.read q).isSome = true := by
  unfold apply_variants
  dsimp only
  split
  · exact FS.read_write_isSome _ _ _ _ (FS.read_write_isSome _ _ _ _ h)
  · exact FS.read_write_isSome _ _ _ _ h

theorem apply_variants_read_ne (w : World) (f gz o : String) (st : St) (q : String)
    (hq : q ≠ o) :
    (apply_variants w f gz o st).1.fs.read q = st.fs.read q := by
  unfold apply_variants
  dsimp only
  split
  · rw [FS.read_write_ne _ _ _ _ hq, FS.read_write_ne _ _ _ _ hq]
  · rw [FS.read_write_ne _ _ _ _ hq]

theorem validate_output_fs (f o : String) (st : St) :
    (validate_output f o st).1.fs = st.fs := by
  unfold validate_output
  split
  · rfl
  · split <;> rfl

theorem validate_output_ok (f o : String) (st : St)
    (hin : (st.fs.read f).isSome = true) (hout : (st.fs.read o).isSome = true) :
    ∃ r, (validate_output f o st).2 = .ok r := by
  obtain ⟨inL, e1⟩ := Option.isSome_iff_exists.mp hin
  obtain ⟨outL, e2⟩ := Option.isSome_iff_exists.mp hout
  simp only [validate_output, e1, e2]
  exact ⟨_, rfl⟩

/-- C6: when every required tool is present and every external stage
succeeds (and the reference file exists, so the validator can read it),
the pipeline run completes normally and returns the validator's verdict —
possibly a negative one — to its caller, rather than raising; the raised
failures are confined to the `PipelineError` kinds. -/
theorem run_returns_verdict (w : World) (fasta vcf out : String) (st : St)
    (htools : required_tools.all (fun t => w.toolOk t) = true)
    (h2 : w.faidxRes.returncode = 0) (h3 : w.bgzipRes.returncode = 0)
    (h4 : w.tabixRes.returncode = 0) (h5 : w.viewRes.returncode = 0)
    (h6 : w.consensusRes.returncode = 0)
    (hfa : (st.fs.read fasta).isSome = true) :
    (run w fasta vcf out st).2 = .ok (runVerdict w fasta vcf out st) := by
  suffices hex : ∃ b, (run w fasta vcf out st).2 = .ok b by
    obtain ⟨b, e⟩ := hex
    rw [e]
    unfold runVerdict
    rw [e]
  unfold run
  rcases e1 : check_dependencies w st with ⟨st1, r1⟩
  have hr1 : r1 = .ok () := by
    have hh := check_dependencies_ok w st htools; rw [e1] at hh; exact hh
  subst hr1
  have hfa1 : (st1.fs.read fasta).isSome = true := by
    have hh := check_dependencies_fs w st
    rw [e1] at hh
    rw [show st1.fs = st.fs from hh]
    exact hfa
  dsimp only
  rcases e2 : index_fasta w fasta st1 with ⟨st2, r2⟩
  have hr2 : r2 = .ok () := by
    have hh := index_fasta_ok w fasta st1 h2; rw [e2] at hh; exact hh
  subst hr2
  have hfa2 : (st2.fs.read fasta).isSome = true := by
    have hh := index_fasta_fs_isSome w fasta st1 fasta hfa1
    rw [e2] at hh; exact hh
  dsimp only
  rcases e3 : compress_and_index_vcf w vcf st2 with ⟨st3, r3⟩
  obtain ⟨gz, hok3⟩ := compress_ok w vcf st2 h3 h4
  rw [e3] at hok3
  have hr3 : r3 = .ok gz := hok3
  subst hr3
  have hfa3 : (st3.fs.read fasta).isSome = true := by
    have hh := compress_fs_isSome w vcf st2 fasta hfa2
    rw [e3] at hh; exact hh
  dsimp only
  rcases e4 : count_stage w gz st3 with ⟨st4, r4⟩
  obtain ⟨n, hok4⟩ := count_stage_ok w gz st3 h5
  rw [e4] at hok4
  have hr4 : r4 = .ok n := hok4
  subst hr4
  have hfa4 : (st4.fs.read fasta).isSome = true := by
    have hh := count_stage_fs w gz st3
    rw [e4] at hh
    rw [show st4.fs = st3.fs from hh]
    exact hfa3
  dsimp only
  rcases e5 : apply_variants w fasta gz out st4 with ⟨st5, r5⟩
  have hr5 : r5 = .ok () := by
    have hh := apply_variants_ok w fasta gz out st4 h6; rw [e5] at hh; exact hh
  subst hr5
  have hfa5 : (st5.fs.read fasta).isSome = true := by
    have hh := apply_variants_fs_isSome w fasta gz out st4 fasta hfa4
    rw [e5] at hh; exact hh
  have hout5 : (st5.fs.read out).isSome = true := by
    have hh := apply_variants_read_out w fasta gz out st4 h6
    rw [e5] at hh
    rw [hh]
    rfl
  dsimp only
  obtain ⟨r, hv⟩ := validate_output_ok fasta out st5 hfa5 hout5
  rcases e6 : validate_output fasta out st5 with ⟨st6, r6⟩
  rw [e6] at hv
  have hr6 : r6 = .ok r := hv
  subst hr6
  exact ⟨r.verdict, rfl⟩

set_option maxRecDepth 20000 in
/-- Witness for C6: on the all-success fixture whose consensus output is
byte-identical to the reference, the run completes and returns the negative
verdict `false` instead of raising. -/
theorem run_returns_verdict_witness :
    (run allOkWorld "ref.fa" "vars.vcf" "out.fa" stStart).2 =
      .ok (runVerdict allOkWorld "ref.fa" "vars.vcf" "out.fa" stStart) ∧
    (run allOkWorld "ref.fa" "vars.vcf" "out.fa" stStart).2 = .ok false :=
  ⟨run_returns_verdict allOkWorld "ref.fa" "vars.vcf" "out.fa" stStart
      (by decide) (by decide) (by decide) (by decide) (by decide) (by decide)
      (by decide),
   by decide⟩

theorem append_append_ne (p t u : String) (h : t.length + u.length ≠ 0) :
    p ++ t ++ u ≠ p := by
  intro he
  have hlen := congrArg String.length he
  rw [String.length_append, String.length_append] at hlen
  omega

/-- C9: the pipeline never mutates the original variant file — for every
world and starting state (whether stages succeed or fail), after `run` the
variant path's content is unchanged, provided only that the caller-chosen
output path and the derived reference-index path are not the variant path
itself; and compression writes the new compressed artifact at the derived
`source path + ".gz"` path (returned for downstream use), leaving the
original variant file's content unchanged. -/
theorem pipeline_preserves_vcf (w : World) (fasta vcf out : String) (st : St)
    (h1 : out ≠ vcf) (h2 : fasta ++ ".fai" ≠ vcf) :
    (run w fasta vcf out st).1.fs.read vcf = st.fs.read vcf ∧
    (pyEndsWith vcf ".gz" = false → w.bgzipRes.returncode = 0 →
      w.tabixRes.returncode = 0 →
      (compress_and_index_vcf w vcf st).2 = .ok (vcf ++ ".gz") ∧
      (compress_and_index_vcf w vcf st).1.fs.pathExists (vcf ++ ".gz") = true ∧
      (compress_and_index_vcf w vcf st).1.fs.read vcf = st.fs.read vcf) := by
  have hA : vcf ≠ vcf ++ ".gz" := (length_append_ne vcf ".gz" (by decide)).symm
  have hB : vcf ≠ vcf ++ ".tbi" := (length_append_ne vcf ".tbi" (by decide)).symm
  have hC : vcf ≠ vcf ++ ".gz" ++ ".tbi" :=
    (append_append_ne vcf ".gz" ".tbi" (by decide)).symm
  constructor
  · unfold run
    rcases e1 : check_dependencies w st with ⟨st1, r1⟩
    have f1 : st1.fs = st.fs := by
      have hh := check_dependencies_fs w st; rw [e1] at hh; exact hh
    cases r1 with
    | error er => dsimp only; rw [f1]
    | ok u =>
      dsimp only
      rcases e2 : index_fasta w fasta st1 with ⟨st2, r2⟩
      have f2 : st2.fs.read vcf = st1.fs.read vcf := by
        have hh := index_fasta_read_ne w fasta st1 vcf (Ne.symm h2)
        rw [e2] at hh; exact hh
      cases r2 with
      | error er => dsimp only; rw [f2, f1]
      | ok u =>
        dsimp only
        rcases e3 : compress_and_index_vcf w vcf st2 with ⟨st3, r3⟩
        have f3 : st3.fs.read vcf = st2.fs.read vcf := by
          have hh := compress_read_ne w vcf st2 vcf hA hB hC
          rw [e3] at hh; exact hh
        cases r3 with
        | error er => dsimp only; rw [f3, f2, f1]
        | ok gz =>
          dsimp only
          rcases e4 : count_stage w gz st3 with ⟨st4, r4⟩
          have f4 : st4.fs = st3.fs := by
            have hh := count_stage_fs w gz st3; rw [e4] at hh; exact hh
          cases r4 with
          | error er => dsimp only; rw [f4, f3, f2, f1]
          | ok n =>
            dsimp only
            rcases e5 : apply_variants w fasta gz out st4 with ⟨st5, r5⟩
            have f5 : st5.fs.read vcf = st4.fs.read vcf := by
              have hh := apply_variants_read_ne w fasta gz out st4 vcf (Ne.symm h1)
              rw [e5] at hh; exact hh
            cases r5 with
            | error er => dsimp only; rw [f5, f4, f3, f2, f1]
            | ok u =>
              dsimp only
              rcases e6 : validate_output fasta out st5 with ⟨st6, r6⟩
              have f6 : st6.fs = st5.fs := by
                have hh := validate_output_fs fasta out st5; rw [e6] at hh; exact hh
              cases r6 <;> dsimp only <;> rw [f6, f5, f4, f3, f2, f1]
  · intro hne h3 h4
    obtain ⟨hok, hsome⟩ := ensure_compressed_creates w vcf st hne h3
    rcases e : ensure_compressed w vcf st with ⟨st1, r⟩
    rw [e] at hok hsome
    have hr : r = .ok (vcf ++ ".gz") := hok
    subst hr
    have hback : st1.fs.read vcf = st.fs.read vcf := by
      have hh := ensure_compressed_read_ne w vcf st vcf hA
      rw [e] at hh; exact hh
    unfold compress_and_index_vcf
    rw [e]
    dsimp only
    refine ⟨index_vcf_tbi_ok w _ st1 h4, ?_, ?_⟩
    · have hh := index_vcf_tbi_fs_isSome w (vcf ++ ".gz") st1 (vcf ++ ".gz") hsome
      simpa [FS.pathExists] using hh
    · rw [index_vcf_tbi_read_ne w _ st1 vcf hC, hback]

/-- Witness for C9: a full run of the all-success fixture leaves the
variant file's content unchanged, and compression produces the `.gz`
artifact beside it. -/
theorem pipeline_preserves_vcf_witness :
    (run allOkWorld "ref.fa" "vars.vcf" "out.fa" stStart).1.fs.read "vars.vcf" =
      stStart.fs.read "vars.vcf" ∧
    (pyEndsWith "vars.vcf" ".gz" = false →
      allOkWorld.bgzipRes.returncode = 0 →
      allOkWorld.tabixRes.returncode = 0 →
      (compress_and_index_vcf allOkWorld "vars.vcf" stStart).2 =
        .ok ("vars.vcf" ++ ".gz") ∧
      (compress_and_index_vcf allOkWorld "vars.vcf" stStart).1.fs.pathExists
        ("vars.vcf" ++ ".gz") = true ∧
      (compress_and_index_vcf allOkWorld "vars.vcf" stStart).1.fs.read
        "vars.vcf" = stStart.fs.read "vars.vcf") :=
  pipeline_preserves_vcf allOkWorld "ref.fa" "vars.vcf" "out.fa" stStart
    (by decide) (by decide)

end VCF
